import Mathlib

/-!
Verification development for the tax_web_app repository.

The client-side code (review_form.js, upload.js, the AI-advisor page) is
embedded shallowly: DOM field values become explicit records, event-driven
methods become pure functions on explicit state. Machine numerals that the
JavaScript treats as IEEE doubles are modelled as exact rationals, which is
faithful for the comparison logic being verified (no arithmetic overflow is
involved). Backend components that the repository does not ship (the regime
calculator, the comparator, the draft listing and the conversation
controller) are modelled from the specification, and each such definition
says so in its doc comment.
-/

namespace TaxWebApp

/-- The form fields of review_form.js (the fieldMappings / fieldNames lists,
review_form.js lines 96-114 and 496-502). -/
inductive FieldKey
  | financialYear
  | age
  | grossSalary
  | basicSalary
  | hraReceived
  | rentPaid
  | ltaReceived
  | otherExemptions
  | deduction80c
  | deduction80d
  | deduction80dd
  | deduction80e
  | deduction80tta
  | homeLoanInterest
  | otherDeductions
  | otherIncome
  | standardDeduction
  | professionalTax
  | tds
  deriving DecidableEq, Repr

/-- A raw DOM input value together with its JavaScript parse results.
`text` is `field.value`; `parsed` is `parseFloat(field.value)` with `none`
for NaN; `parsedInt` is `parseInt(field.value)` with `none` for NaN. The
parse functions themselves are outside the embedding: each input carries
their results. -/
structure FieldRaw where
  text : String
  parsed : Option ℚ
  parsedInt : Option ℤ
  deriving DecidableEq, Repr

/-- The idiom `parseFloat(field.value) || 0` of review_form.js line 185:
NaN (and 0 itself) collapse to 0. -/
def parseFloatOr0 (fr : FieldRaw) : ℚ :=
  match fr.parsed with
  | none => 0
  | some q => q

/-- The emptiness test `field.value.trim() === ''` (and the falsiness test
`!field.value.trim()`): true exactly when the string is all whitespace. -/
def isBlankStr (s : String) : Bool :=
  s.data.all (fun c => c.isWhitespace)

/-- The regex test `/^\d{4}-\d{2}$/.test(field.value)` of review_form.js
lines 208-209. -/
def isFyFormat (s : String) : Bool :=
  match s.data with
  | [a, b, c, d, e, f, g] =>
      a.isDigit && b.isDigit && c.isDigit && d.isDigit &&
      (e = '-') && f.isDigit && g.isDigit
  | _ => false

/-- FinancialDataReview.validateField (review_form.js lines 184-311).
Returns the `isValid` flag: `true` means the field is given the success
class, `false` the error class. `grossRaw` is the current value of the
grossSalary input, read by the basic_salary case (line 223). Fields not
named in the switch keep `isValid = true` (the default). -/
def validateField (k : FieldKey) (fr : FieldRaw) (grossRaw : FieldRaw) : Bool :=
  let value := parseFloatOr0 fr
  match k with
  | .age => !(decide (value < 18) || decide (value > 100))
  | .financialYear => isFyFormat fr.text
  | .grossSalary => !(decide (value < 300000))
  | .basicSalary => !(decide (value > parseFloatOr0 grossRaw))
  | .deduction80c => !(decide (value > 150000))
  | .deduction80d => !(decide (value > 25000))
  | .deduction80dd => !(decide (value > 125000))
  | .deduction80e => !(decide (value > 40000))
  | .deduction80tta => !(decide (value > 10000))
  | .homeLoanInterest => !(decide (value > 200000))
  | _ => true

/-- The error condition claimed by the spec for C4, written from the claim
text alone (range constraints only, no gross_salary lower bound and no
financial_year format rule), for comparison with `validateField`. -/
def claimedRangeViolation (k : FieldKey) (fr : FieldRaw) (grossRaw : FieldRaw) : Bool :=
  let value := parseFloatOr0 fr
  match k with
  | .age => decide (value < 18) || decide (value > 100)
  | .basicSalary => decide (value > parseFloatOr0 grossRaw)
  | .deduction80c => decide (value > 150000)
  | .deduction80d => decide (value > 25000)
  | .deduction80dd => decide (value > 125000)
  | .deduction80e => decide (value > 40000)
  | .deduction80tta => decide (value > 10000)
  | .homeLoanInterest => decide (value > 200000)
  | _ => false

/-- The amended error condition: the claimed range constraints plus the two
further checks the code performs, gross_salary below 300000 and a
financial_year value not matching the YYYY-YY pattern. -/
def amendedViolation (k : FieldKey) (fr : FieldRaw) (grossRaw : FieldRaw) : Bool :=
  let value := parseFloatOr0 fr
  match k with
  | .age => decide (value < 18) || decide (value > 100)
  | .financialYear => !(isFyFormat fr.text)
  | .grossSalary => decide (value < 300000)
  | .basicSalary => decide (value > parseFloatOr0 grossRaw)
  | .deduction80c => decide (value > 150000)
  | .deduction80d => decide (value > 25000)
  | .deduction80dd => decide (value > 125000)
  | .deduction80e => decide (value > 40000)
  | .deduction80tta => decide (value > 10000)
  | .homeLoanInterest => decide (value > 200000)
  | _ => false

/-- First match in an association list of form fields, the analogue of
`form.querySelector('[name=...]')`: `none` means the element is absent. -/
def lookupField (fields : List (FieldKey × FieldRaw)) (k : FieldKey) : Option FieldRaw :=
  match fields with
  | [] => none
  | p :: rest => if p.1 = k then some p.2 else lookupField rest k

/-- The review-form page state: the form's input elements with their current
values, and the session id loaded from sessionStorage (`none` models a null
or undefined stored value). -/
structure FormState where
  fields : List (FieldKey × FieldRaw)
  sessionId : Option String

/-- The grossSalary input as read by the basic_salary validation
(review_form.js line 223); an absent element contributes value 0. -/
def grossField (st : FormState) : FieldRaw :=
  (lookupField st.fields .grossSalary).getD ⟨"", none, none⟩

/-- The fields currently carrying the error class. The page revalidates a
field on every input and blur event (addInputValidation, lines 22-37) and on
populate (line 125), so a field's error class reflects `validateField` on
its current value. -/
def errorFields (st : FormState) : List FieldKey :=
  (st.fields.filter (fun p => !(validateField p.1 p.2 (grossField st)))).map Prod.fst

/-- The required-field check of showValidationMessages (lines 382-388): a
missing or whitespace-empty gross_salary or basic_salary input adds an
error entry. -/
def requiredMissing (st : FormState) : List FieldKey :=
  [FieldKey.grossSalary, FieldKey.basicSalary].filter (fun k =>
    match lookupField st.fields k with
    | none => true
    | some fr => isBlankStr fr.text)

/-- The error list collected by showValidationMessages (lines 369-388). -/
def validationMessages (st : FormState) : List FieldKey :=
  errorFields st ++ requiredMissing st

/-- FinancialDataReview.showValidationMessages (lines 365-398): `true` means
no errors were collected and submission may proceed. -/
def showValidationMessages (st : FormState) : Bool :=
  validationMessages st = []

/-- The session-id guard of submitForm and getFormData (lines 449 and 535):
a null/undefined, empty, literal "undefined" or literal "null" session id is
invalid. -/
def sessionInvalid (s : Option String) : Bool :=
  match s with
  | none => true
  | some v => v = "" || v = "undefined" || v = "null"

/-- A serialized JSON field value in the submit-financials payload. -/
inductive JsonValue
  | nullV
  | numV (q : ℚ)
  | strV (s : String)
  deriving DecidableEq, Repr

/-- Per-field serialization of getFormData for a field present in the form
(review_form.js lines 508-519): financial_year passes the raw string, age is
`parseInt(v) || null`, the two optional fields map a trim-empty input to
null and otherwise `parseFloat(v) || 0`, and every other field is
`parseFloat(v) || 0`. -/
def serializeField (k : FieldKey) (fr : FieldRaw) : JsonValue :=
  match k with
  | .financialYear => .strV fr.text
  | .age =>
      match fr.parsedInt with
      | none => .nullV
      | some n => if n = 0 then .nullV else .numV (n : ℚ)
  | .otherDeductions => if isBlankStr fr.text then .nullV else .numV (parseFloatOr0 fr)
  | .otherIncome => if isBlankStr fr.text then .nullV else .numV (parseFloatOr0 fr)
  | _ => .numV (parseFloatOr0 fr)

/-- Defaults getFormData uses for a field element missing from the document
(review_form.js lines 520-530). -/
def missingSerialization (k : FieldKey) : JsonValue :=
  match k with
  | .financialYear => .strV "2024-25"
  | .age => .nullV
  | _ => .numV 0

/-- The fieldNames list of getFormData (lines 496-502). -/
def fieldNamesList : List FieldKey :=
  [.financialYear, .age, .grossSalary, .basicSalary,
   .hraReceived, .rentPaid, .ltaReceived, .otherExemptions,
   .deduction80c, .deduction80d, .deduction80dd, .deduction80e,
   .deduction80tta, .homeLoanInterest, .otherDeductions,
   .otherIncome, .standardDeduction, .professionalTax, .tds]

/-- The JSON body built by getFormData (lines 489-546). -/
structure Payload where
  entries : List (FieldKey × JsonValue)
  sessionId : Option String
  status : String
  isDraft : Bool
  deriving DecidableEq, Repr

/-- FinancialDataReview.getFormData (lines 489-546). -/
def getFormData (st : FormState) : Payload :=
  { entries := fieldNamesList.map (fun k =>
      (k, match lookupField st.fields k with
          | some fr => serializeField k fr
          | none => missingSerialization k))
    sessionId := if sessionInvalid st.sessionId then none else st.sessionId
    status := "completed"
    isDraft := false }

/-- Whether the FinancialDataReview class defines a showErrorMessage method.
It does not: showErrorMessage is defined only on the TaxResults class
(review_form.js line 1067, inside the class opened at line 713), while
FinancialDataReview (lines 3-633) defines only showSuccessMessage and
showError; the call `this.showErrorMessage(...)` at line 451 therefore
throws a TypeError at run time. -/
def financialDataReviewHasShowErrorMessage : Bool := false

/-- Outcome of a submitForm call. `sessionErrorRedirect` is the intended
invalid-session path of lines 450-455 (session-expired message plus a
delayed redirect to '/'); `genericErrorShown` is the catch block of lines
483-486 (generic failure notification, no redirect, no POST). -/
inductive SubmitOutcome
  | blockedByValidation
  | sessionErrorRedirect
  | genericErrorShown
  | posted (p : Payload)
  deriving DecidableEq, Repr

/-- FinancialDataReview.submitForm (lines 442-487). When validation passes
and the session id is invalid, the code attempts
`this.showErrorMessage(...)`: since that method does not exist on this
class, the call throws and control lands in the catch block before the
redirect timer is installed, which the conditional on
`financialDataReviewHasShowErrorMessage` makes explicit. -/
def submitForm (st : FormState) : SubmitOutcome :=
  if !(showValidationMessages st) then .blockedByValidation
  else if sessionInvalid st.sessionId then
    (if financialDataReviewHasShowErrorMessage then .sessionErrorRedirect
     else .genericErrorShown)
  else .posted (getFormData st)

/-- A value rendered back into a form input by populateForm. -/
inductive DisplayValue
  | displayEmpty
  | displayNum (q : ℚ)
  deriving DecidableEq, Repr

/-- FinancialDataReview.populateForm, per-field rendering of stored data
(review_form.js lines 116-127): a stored 0 for other_deductions or
other_income is rendered as the empty string, every other value verbatim. -/
def populateFormValue (k : FieldKey) (v : ℚ) : DisplayValue :=
  if (k = .otherDeductions ∨ k = .otherIncome) ∧ v = 0 then .displayEmpty
  else .displayNum v

/-- Character-list version of JavaScript `String.prototype.startsWith`. -/
def charsStartWith : List Char → List Char → Bool
  | [], _ => true
  | _ :: _, [] => false
  | p :: ps, c :: cs => p = c && charsStartWith ps cs

/-- Character-list version of JavaScript `String.prototype.includes`:
containment of `pat` as a contiguous run. -/
def charsContain (pat : List Char) : List Char → Bool
  | [] => charsStartWith pat []
  | c :: cs => charsStartWith pat (c :: cs) || charsContain pat cs

/-- The check `file.type.includes('pdf')` of upload.js line 695. -/
def typeIncludesPdf (t : String) : Bool :=
  charsContain "pdf".data t.data

/-- A File object as the uploader sees it: name, MIME type and byte size. -/
structure JsFile where
  name : String
  ftype : String
  size : ℕ
  deriving DecidableEq, Repr

/-- DocumentUploader constructor constant maxFileSize (upload.js line 7). -/
def maxFileSize : ℕ := 10 * 1024 * 1024

/-- DocumentUploader constructor constant maxFiles (upload.js line 8). -/
def maxFiles : ℕ := 4

/-- DocumentUploader.validateFile (upload.js lines 693-707): a file passes
when its MIME type contains "pdf" and its size does not exceed
maxFileSize. -/
def validateFile (f : JsFile) : Bool :=
  if !(typeIncludesPdf f.ftype) then false
  else if maxFileSize < f.size then false
  else true

/-- The DocumentUploader state processFiles reads and writes. -/
structure UploaderState where
  uploadedFiles : List JsFile
  documentType : String
  isClearingFiles : Bool
  deriving Repr

/-- DocumentUploader.processFiles (upload.js lines 591-633): a no-op while
files are being cleared; in multiple-document mode the valid new files are
appended and the list truncated to maxFiles; otherwise the valid files
replace the list, keeping only the first. -/
def processFiles (st : UploaderState) (files : List JsFile) : UploaderState :=
  if st.isClearingFiles then st
  else
    let validFiles := files.filter validateFile
    if st.documentType = "salary_slip_multiple" then
      let combined := st.uploadedFiles ++ validFiles
      let limited := if maxFiles < combined.length then combined.take maxFiles else combined
      { st with uploadedFiles := limited }
    else
      { st with uploadedFiles := validFiles.take 1 }

/-- Modelled from the spec: the backend Comparator (section 4.2) is not in
the repository sources; only its persisted output schema (create_tables.sql,
TaxComparison) ships. Per the spec, best_regime is the argmin of the two
total_tax figures, and an exact tie prefers the new regime. -/
def bestRegime (taxOld taxNew : ℚ) : String :=
  if taxOld < taxNew then "old" else "new"

/-- Modelled from the spec: progressive slab tax (section 4.1, "apply slab
rates"). Each listed slab is a bracket width with its marginal rate; income
beyond the listed brackets is taxed at `topRate`. -/
def slabTax (slabs : List (ℚ × ℚ)) (topRate : ℚ) (income : ℚ) : ℚ :=
  match slabs with
  | [] => topRate * max 0 income
  | (width, rate) :: rest =>
      rate * max 0 (min income width) + slabTax rest topRate (income - width)

/-- Output record of the Regime Calculator (spec section 4.1). `taxAmount`
is the tax after the rebate logic and before cess. -/
structure RegimeOutput where
  taxableIncome : ℚ
  taxAmount : ℚ
  cessAmount : ℚ
  totalTax : ℚ
  deriving DecidableEq, Repr

/-- Modelled from the spec: the backend Regime Calculator (section 4.1) is
not in the repository sources. Taxable income is the gross total income
less the regime's deductions (clamped at zero); slab tax is computed over
it; the rebate zeroes the tax when taxable income is below the configured
threshold; cess is 4 percent of the post-rebate tax; total_tax is
post-rebate tax plus cess. Slab constants, threshold and the deduction
total are parameters, as the spec leaves them configured per financial
year. -/
def regimeCalc (slabs : List (ℚ × ℚ)) (topRate : ℚ) (rebateThreshold : ℚ)
    (grossTotalIncome : ℚ) (deductions : ℚ) : RegimeOutput :=
  let ti := max 0 (grossTotalIncome - deductions)
  let tax := slabTax slabs topRate ti
  let postRebate := if ti < rebateThreshold then 0 else tax
  let cess := (4 / 100) * postRebate
  { taxableIncome := ti
    taxAmount := postRebate
    cessAmount := cess
    totalTax := postRebate + cess }

/-- A row of the UserFinancials table as the draft listing sees it
(create_tables.sql lines 2-17); timestamps are abstracted to naturals. -/
structure DraftRow where
  sessionId : ℕ
  createdAt : ℕ
  expiresAt : Option ℕ
  isDraft : Bool
  deriving DecidableEq, Repr

/-- A draft is expired exactly when its draft_expires_at lies strictly in
the past; a null expiry never expires. -/
def notExpired (now : ℕ) (d : DraftRow) : Bool :=
  match d.expiresAt with
  | none => true
  | some t => !(t < now)

/-- Ordering relation for the draft listing: most recent first. -/
def moreRecent (a b : DraftRow) : Prop := b.createdAt ≤ a.createdAt

instance : DecidableRel moreRecent := fun a b => Nat.decLe b.createdAt a.createdAt

instance : IsTotal DraftRow moreRecent :=
  ⟨fun a b => Nat.le_total b.createdAt a.createdAt⟩

instance : IsTrans DraftRow moreRecent := ⟨fun _ _ _ h1 h2 => Nat.le_trans h2 h1⟩

/-- Modelled from the spec: the backend list_drafts operation (section 4.3,
"list_drafts(user_id) → drafts not yet expired, most-recent first") is not
in the repository sources; only the UserFinancials schema ships. Draft rows
that are not expired at evaluation time are returned sorted by created_at
descending. -/
def listDrafts (now : ℕ) (rows : List DraftRow) : List DraftRow :=
  (rows.filter (fun d => d.isDraft && notExpired now d)).insertionSort moreRecent

/-- States of the conversation controller (spec section 4.4). -/
inductive ConvState
  | notStarted
  | awaitingResponse (round : ℕ)
  | finalizing
  | complete
  | failed
  deriving DecidableEq, Repr

/-- Spec section 4.4 bound max_rounds. -/
def maxRounds : ℕ := 4

/-- Events driving the conversation controller: an accepted user response,
completion of finalization, or an upstream advisory-service failure. -/
inductive ConvEvent
  | accepted
  | finalized
  | upstreamFailure
  deriving DecidableEq, Repr

/-- Modelled from the spec: the backend Conversation Controller (section
4.4) is not in the repository sources; the shipped AI-advisor page
(src/unnamed/part_000) only mirrors the round number the backend reports.
Start enters AwaitingResponse(1); an accepted response in round r moves to
AwaitingResponse(r+1), or to Finalizing when r equals max_rounds;
finalization completes; any upstream failure moves to Failed. -/
def convStep (s : ConvState) (e : ConvEvent) : ConvState :=
  match s, e with
  | .awaitingResponse r, .accepted =>
      if r = maxRounds then .finalizing else .awaitingResponse (r + 1)
  | .finalizing, .finalized => .complete
  | .awaitingResponse _, .upstreamFailure => .failed
  | .finalizing, .upstreamFailure => .failed
  | s, _ => s

/-- The state entered by start_conversation (spec section 4.4,
"start → AwaitingResponse(1)"). -/
def startConv : ConvState := .awaitingResponse 1

/-- Run of the conversation controller over a sequence of events. -/
def runConv (s : ConvState) (evts : List ConvEvent) : ConvState :=
  match evts with
  | [] => s
  | e :: rest => runConv (convStep s e) rest

/-- Serialization of a blank input per amended claim C8: financial_year
passes the raw string through, age and the two optional fields give null,
every other field gives 0. -/
def emptyInputSerialization (k : FieldKey) (s : String) : JsonValue :=
  match k with
  | .financialYear => .strV s
  | .age => .nullV
  | .otherDeductions => .nullV
  | .otherIncome => .nullV
  | _ => .numV 0

/-- Serialization of a non-blank unparseable input per amended claim C8:
financial_year passes the raw string through, age gives null, every other
field gives 0. -/
def unparsedInputSerialization (k : FieldKey) (s : String) : JsonValue :=
  match k with
  | .financialYear => .strV s
  | .age => .nullV
  | _ => .numV 0

/-- C2: for every pair of regime-calculator outputs, best_regime is the
regime whose total_tax is strictly lower, and an exact tie yields "new". -/
theorem c2_comparator_best_regime (o n : ℚ) :
    (bestRegime o n = "old" ↔ o < n) ∧ (bestRegime o n = "new" ↔ n ≤ o) := by
  unfold bestRegime
  by_cases h : o < n
  · rw [if_pos h]
    exact ⟨⟨fun _ => h, fun _ => rfl⟩,
      ⟨fun he => absurd he (by decide), fun hle => absurd h (not_lt.mpr hle)⟩⟩
  · rw [if_neg h]
    exact ⟨⟨fun he => absurd he (by decide), fun hlt => absurd hlt h⟩,
      ⟨fun _ => not_lt.mp h, fun _ => rfl⟩⟩

/-- C4 counterexample: a gross_salary input of 100000 is marked error by
validateField, while the claim's enumeration of range constraints contains
no condition on gross_salary and so calls it success. -/
theorem c4_counterexample :
    validateField .grossSalary ⟨"100000", some 100000, some 100000⟩
      ⟨"100000", some 100000, some 100000⟩ = false ∧
    claimedRangeViolation .grossSalary ⟨"100000", some 100000, some 100000⟩
      ⟨"100000", some 100000, some 100000⟩ = false := by decide

/-- C4 amended: validateField marks a field as an error exactly when it
violates the claimed range constraints, a gross_salary below 300000, or a
financial_year value not in YYYY-YY format; otherwise it marks success. -/
theorem c4_validate_field_amended (k : FieldKey) (fr grossRaw : FieldRaw) :
    validateField k fr grossRaw = !(amendedViolation k fr grossRaw) := by
  cases k <;> simp [validateField, amendedViolation]

/-- C9: every gross_salary value strictly below 300000 is marked as an
error by validateField, even though the spec's data model states no lower
bound on gross_salary. -/
theorem c9_gross_salary_lower_bound (fr grossRaw : FieldRaw)
    (h : parseFloatOr0 fr < 300000) :
    validateField .grossSalary fr grossRaw = false := by
  simp [validateField, h]

/-- Witness for C9 at the concrete input 100000. -/
theorem c9_witness :
    parseFloatOr0 ⟨"100000", some 100000, some 100000⟩ < 300000 ∧
    validateField .grossSalary ⟨"100000", some 100000, some 100000⟩
      ⟨"", none, none⟩ = false :=
  ⟨by norm_num [parseFloatOr0],
   c9_gross_salary_lower_bound _ _ (by norm_num [parseFloatOr0])⟩

/-- C8 counterexample: age is a numeric field other than other_deductions
and other_income, yet getFormData serializes an empty age input as null,
not 0 (`parseInt(v) || null`, review_form.js line 511). -/
theorem c8_counterexample :
    serializeField .age ⟨"", none, none⟩ = .nullV ∧
    JsonValue.nullV ≠ .numV 0 ∧
    FieldKey.age ≠ .otherDeductions ∧ FieldKey.age ≠ .otherIncome := by decide

/-- C8 amended: other_deductions, other_income and also age serialize an
empty input as null; every other numeric field serializes an empty or
unparseable input as 0 (financial_year passes the string through); and
populateForm renders a stored 0 for other_deductions or other_income as
the empty string while other fields render 0 verbatim. -/
theorem c8_serialization_amended (k : FieldKey) (s t : String) (q : ℚ)
    (hs : isBlankStr s = true) (ht : isBlankStr t = false) :
    serializeField k ⟨s, none, none⟩ = emptyInputSerialization k s ∧
    serializeField k ⟨t, none, none⟩ = unparsedInputSerialization k t ∧
    populateFormValue .otherDeductions 0 = .displayEmpty ∧
    populateFormValue .otherIncome 0 = .displayEmpty ∧
    populateFormValue .grossSalary q = .displayNum q := by
  refine ⟨?_, ?_, by simp [populateFormValue], by simp [populateFormValue], ?_⟩
  · cases k <;> simp [serializeField, emptyInputSerialization, parseFloatOr0, hs]
  · cases k <;> simp [serializeField, unparsedInputSerialization, parseFloatOr0, ht]
  · simp [populateFormValue]

/-- Witness for C8 amended at a blank and a non-blank unparseable input. -/
theorem c8_amended_witness :
    (serializeField .otherDeductions ⟨"", none, none⟩ =
        emptyInputSerialization .otherDeductions "" ∧
      serializeField .otherDeductions ⟨"abc", none, none⟩ =
        unparsedInputSerialization .otherDeductions "abc" ∧
      populateFormValue .otherDeductions 0 = .displayEmpty ∧
      populateFormValue .otherIncome 0 = .displayEmpty ∧
      populateFormValue .grossSalary 7 = .displayNum 7) :=
  c8_serialization_amended .otherDeductions "" "abc" 7 (by decide) (by decide)

/-- C7 evaluation at the failing inputs: with an otherwise valid form and a
missing, empty, "undefined" or "null" session id, submitForm performs no
POST, but instead of the intended session-expired message and redirect to
'/' it lands in the generic catch handler, because FinancialDataReview has
no showErrorMessage method and the call at line 451 throws. -/
theorem c7_session_guard_no_redirect :
    (submitForm ⟨[(.grossSalary, ⟨"500000", some 500000, some 500000⟩),
                  (.basicSalary, ⟨"300000", some 300000, some 300000⟩)],
                 none⟩ = .genericErrorShown ∧
     submitForm ⟨[(.grossSalary, ⟨"500000", some 500000, some 500000⟩),
                  (.basicSalary, ⟨"300000", some 300000, some 300000⟩)],
                 some "undefined"⟩ = .genericErrorShown ∧
     submitForm ⟨[(.grossSalary, ⟨"500000", some 500000, some 500000⟩),
                  (.basicSalary, ⟨"300000", some 300000, some 300000⟩)],
                 some "null"⟩ = .genericErrorShown ∧
     submitForm ⟨[(.grossSalary, ⟨"500000", some 500000, some 500000⟩),
                  (.basicSalary, ⟨"300000", some 300000, some 300000⟩)],
                 some ""⟩ = .genericErrorShown) ∧
    financialDataReviewHasShowErrorMessage = false := by decide

/-- C5: whenever some form field carries a validation error, submitForm
stops at the validation gate, so no POST to /api/submit-financials happens
and no invalid profile reaches the comparator. -/
theorem c5_error_blocks_post (st : FormState) (k : FieldKey) (fr : FieldRaw)
    (hmem : (k, fr) ∈ st.fields)
    (herr : validateField k fr (grossField st) = false) :
    submitForm st = .blockedByValidation := by
  have hin : (k, fr) ∈ st.fields.filter (fun p => !(validateField p.1 p.2 (grossField st))) :=
    List.mem_filter.mpr ⟨hmem, by simp [herr]⟩
  have hk : k ∈ errorFields st := List.mem_map.mpr ⟨(k, fr), hin, rfl⟩
  have hne : validationMessages st ≠ [] := by
    unfold validationMessages
    intro hc
    rcases List.append_eq_nil.mp hc with ⟨h1, _⟩
    exact List.ne_nil_of_mem hk h1
  unfold submitForm
  simp [showValidationMessages, hne]

/-- Witness for C5: a form whose gross_salary input 100 is marked error. -/
theorem c5_witness :
    submitForm ⟨[(.grossSalary, ⟨"100", some 100, some 100⟩)], some "sid"⟩ =
      .blockedByValidation :=
  c5_error_blocks_post _ .grossSalary ⟨"100", some 100, some 100⟩ (by simp) (by decide)

/-- C6: a draft whose draft_expires_at lies strictly in the past does not
appear in the list_drafts output, and the returned drafts are ordered most
recent first. -/
theorem c6_list_drafts (now : ℕ) (rows : List DraftRow) (d : DraftRow) (t : ℕ)
    (hexp : d.expiresAt = some t) (hpast : t < now) :
    d ∉ listDrafts now rows ∧ (listDrafts now rows).Sorted moreRecent := by
  constructor
  · intro hmem
    unfold listDrafts at hmem
    rw [List.mem_insertionSort] at hmem
    have h2 := (List.mem_filter.mp hmem).2
    simp [notExpired, hexp, hpast] at h2
  · exact List.sorted_insertionSort moreRecent _

/-- Witness for C6: a single draft expired at 5 is absent at time 10. -/
theorem c6_witness :
    (⟨1, 3, some 5, true⟩ : DraftRow) ∉ listDrafts 10 [⟨1, 3, some 5, true⟩] ∧
    (listDrafts 10 [⟨1, 3, some 5, true⟩]).Sorted moreRecent :=
  c6_list_drafts 10 [⟨1, 3, some 5, true⟩] ⟨1, 3, some 5, true⟩ 5 rfl (by decide)

/-- One controller step keeps any awaiting-round counter within bounds. -/
theorem convStep_preserves_bounds (s : ConvState) (e : ConvEvent)
    (hinv : ∀ r, s = .awaitingResponse r → 1 ≤ r ∧ r ≤ maxRounds) :
    ∀ r, convStep s e = .awaitingResponse r → 1 ≤ r ∧ r ≤ maxRounds := by
  intro r h0
  cases s with
  | awaitingResponse rs =>
    obtain ⟨h1, h2⟩ := hinv rs rfl
    simp only [maxRounds] at h1 h2 ⊢
    cases e with
    | accepted =>
      by_cases h4 : rs = 4
      · simp [convStep, maxRounds, h4] at h0
      · simp [convStep, maxRounds, h4] at h0
        omega
    | finalized =>
      simp [convStep] at h0
      omega
    | upstreamFailure => simp [convStep] at h0
  | notStarted => cases e <;> simp [convStep] at h0
  | finalizing => cases e <;> simp [convStep] at h0
  | complete => cases e <;> simp [convStep] at h0
  | failed => cases e <;> simp [convStep] at h0

/-- A whole controller run keeps any awaiting-round counter within
bounds. -/
theorem runConv_bounds (evts : List ConvEvent) (s : ConvState)
    (hinv : ∀ r, s = .awaitingResponse r → 1 ≤ r ∧ r ≤ maxRounds) :
    ∀ r, runConv s evts = .awaitingResponse r → 1 ≤ r ∧ r ≤ maxRounds := by
  induction evts generalizing s with
  | nil => exact hinv
  | cons e rest ih =>
      exact fun r hr => ih (convStep s e) (convStep_preserves_bounds s e hinv) r hr

/-- C1: along every run of the conversation controller the round of an
awaiting state never exceeds 4, and an accepted response that yields a next
question moves the round counter up by exactly 1 (staying within the
bound). -/
theorem c1_conversation_rounds (evts : List ConvEvent) (r r' : ℕ)
    (h : runConv startConv evts = .awaitingResponse r)
    (hstep : convStep (.awaitingResponse r) .accepted = .awaitingResponse r') :
    r ≤ 4 ∧ r' = r + 1 ∧ r' ≤ 4 := by
  have hstart : ∀ r0 : ℕ, startConv = ConvState.awaitingResponse r0 →
      1 ≤ r0 ∧ r0 ≤ maxRounds := by
    intro r0 h0
    unfold startConv at h0
    injection h0 with he
    simp only [maxRounds]
    omega
  obtain ⟨h1, h2⟩ := runConv_bounds evts startConv hstart r h
  simp only [maxRounds] at h2
  by_cases h4 : r = 4
  · simp [convStep, maxRounds, h4] at hstep
  · simp [convStep, maxRounds, h4] at hstep
    omega

/-- Witness for C1: the empty run awaits round 1, and an accepted response
moves it to round 2. -/
theorem c1_witness : 1 ≤ 4 ∧ 2 = 1 + 1 ∧ 2 ≤ 4 :=
  c1_conversation_rounds [] 1 2 rfl (by decide)

/-- Progressive slab tax is nonnegative when every marginal rate is. -/
theorem slabTax_nonneg (topRate : ℚ) (ht : 0 ≤ topRate) :
    ∀ (slabs : List (ℚ × ℚ)), (∀ p ∈ slabs, 0 ≤ p.2) →
      ∀ income, 0 ≤ slabTax slabs topRate income
  | [], _, income => mul_nonneg ht (le_max_left 0 income)
  | (w, rt) :: rest, hs, income => by
      have h1 : 0 ≤ rt := hs (w, rt) (List.mem_cons_self _ _)
      have h2 := slabTax_nonneg topRate ht rest
        (fun p hp => hs p (List.mem_cons_of_mem _ hp)) (income - w)
      unfold slabTax
      exact add_nonneg (mul_nonneg h1 (le_max_left 0 _)) h2

/-- C3: for nonnegative slab rates, the regime calculator's total_tax is
nonnegative and its cess_amount is exactly 4 percent of the post-rebate
tax. -/
theorem c3_regime_calculator (slabs : List (ℚ × ℚ))
    (topRate rebateThreshold gti deductions : ℚ)
    (hs : ∀ p ∈ slabs, 0 ≤ p.2) (ht : 0 ≤ topRate) :
    0 ≤ (regimeCalc slabs topRate rebateThreshold gti deductions).totalTax ∧
    (regimeCalc slabs topRate rebateThreshold gti deductions).cessAmount =
      (4 / 100) * (regimeCalc slabs topRate rebateThreshold gti deductions).taxAmount := by
  refine ⟨?_, rfl⟩
  unfold regimeCalc
  dsimp only
  by_cases hr : max 0 (gti - deductions) < rebateThreshold
  · simp [hr]
  · rw [if_neg hr]
    have h0 := slabTax_nonneg topRate ht slabs hs (max 0 (gti - deductions))
    linarith

/-- Witness for C3 at the spec's worked example figures under old-regime
slab constants. -/
theorem c3_witness :
    0 ≤ (regimeCalc [(250000, 0), (250000, 5 / 100), (500000, 20 / 100)]
          (30 / 100) 500000 1200000 425000).totalTax ∧
    (regimeCalc [(250000, 0), (250000, 5 / 100), (500000, 20 / 100)]
          (30 / 100) 500000 1200000 425000).cessAmount =
      (4 / 100) * (regimeCalc [(250000, 0), (250000, 5 / 100), (500000, 20 / 100)]
          (30 / 100) 500000 1200000 425000).taxAmount :=
  c3_regime_calculator _ _ _ _ _ (by norm_num [List.forall_mem_cons]) (by norm_num)

/-- A file accepted by validateFile has a PDF MIME type and is within the
10 MB limit. -/
theorem validateFile_spec (f : JsFile) (h : validateFile f = true) :
    typeIncludesPdf f.ftype = true ∧ f.size ≤ 10485760 := by
  unfold validateFile at h
  by_cases h1 : typeIncludesPdf f.ftype = true
  · refine ⟨h1, ?_⟩
    simp only [h1, Bool.not_true, if_neg] at h
    by_cases h2 : maxFileSize < f.size
    · simp [h2] at h
    · unfold maxFileSize at h2
      omega
  · simp [Bool.not_eq_true] at h1
    simp [h1] at h

/-- C10: a processFiles call starting from a state whose file list is valid
and within its mode's bound leaves at most 4 files in multiple-document
mode and at most 1 otherwise, all of them PDFs of at most 10485760 bytes. -/
theorem c10_process_files_invariant (st : UploaderState) (files : List JsFile)
    (hval : st.uploadedFiles.all validateFile = true)
    (hlen : st.uploadedFiles.length ≤
      if st.documentType = "salary_slip_multiple" then 4 else 1) :
    (processFiles st files).uploadedFiles.length ≤
      (if (processFiles st files).documentType = "salary_slip_multiple" then 4 else 1) ∧
    (processFiles st files).uploadedFiles.all
      (fun f => typeIncludesPdf f.ftype && decide (f.size ≤ 10485760)) = true := by
  have hgood : ∀ f : JsFile, validateFile f = true →
      (typeIncludesPdf f.ftype && decide (f.size ≤ 10485760)) = true := by
    intro f hf
    obtain ⟨ha, hb⟩ := validateFile_spec f hf
    simp [ha, hb]
  unfold processFiles
  by_cases hc : st.isClearingFiles = true
  · simp only [if_pos hc]
    refine ⟨hlen, ?_⟩
    rw [List.all_eq_true] at hval ⊢
    exact fun f hf => hgood f (hval f hf)
  · simp only [if_neg hc]
    have hcomb : ∀ f ∈ st.uploadedFiles ++ files.filter validateFile,
        (typeIncludesPdf f.ftype && decide (f.size ≤ 10485760)) = true := by
      intro f hf
      rcases List.mem_append.mp hf with h | h
      · exact hgood f (List.all_eq_true.mp hval f h)
      · exact hgood f (List.mem_filter.mp h).2
    by_cases hm : st.documentType = "salary_slip_multiple"
    · simp only [if_pos hm]
      constructor
      · dsimp only
        by_cases hl : maxFiles <
            (st.uploadedFiles ++ files.filter validateFile).length
        · rw [if_pos hl]
          simp [List.length_take, maxFiles]
        · rw [if_neg hl]
          unfold maxFiles at hl
          omega
      · dsimp only
        rw [List.all_eq_true]
        intro f hf
        by_cases hl : maxFiles <
            (st.uploadedFiles ++ files.filter validateFile).length
        · rw [if_pos hl] at hf
          exact hcomb f (List.take_subset _ _ hf)
        · rw [if_neg hl] at hf
          exact hcomb f hf
    · simp only [if_neg hm]
      constructor
      · dsimp only
        simp [List.length_take]
      · dsimp only
        rw [List.all_eq_true]
        intro f hf
        exact hgood f (List.mem_filter.mp (List.take_subset _ _ hf)).2

/-- Witness for C10: one valid PDF arriving in single-document mode. -/
theorem c10_witness :
    (processFiles ⟨[], "salary_slip_single", false⟩
        [⟨"a.pdf", "application/pdf", 100⟩]).uploadedFiles.length ≤
      (if (processFiles ⟨[], "salary_slip_single", false⟩
          [⟨"a.pdf", "application/pdf", 100⟩]).documentType =
            "salary_slip_multiple" then 4 else 1) ∧
    (processFiles ⟨[], "salary_slip_single", false⟩
        [⟨"a.pdf", "application/pdf", 100⟩]).uploadedFiles.all
      (fun f => typeIncludesPdf f.ftype && decide (f.size ≤ 10485760)) = true :=
  c10_process_files_invariant ⟨[], "salary_slip_single", false⟩
    [⟨"a.pdf", "application/pdf", 100⟩] (by decide) (by decide)

end TaxWebApp
